import Mathlib

/-!
Shallow embedding of the algorand-carbon-bridge core (TypeScript sources under
src/) and proofs about its specification claims.

Conventions used throughout:
* JavaScript `number` timestamps, nonces and decimal counts become `Int`
  (fractional values never occur on the modelled paths; `NaN` is modelled
  explicitly where the code tests for it, via dedicated constructors).
* bignumber.js values become `BigNum`: a finite arbitrary-precision decimal
  (as a rational), `NaN`, or a signed infinity.
* `throw` / `try`-`catch` becomes `Except String`.
* Network and chain round trips (Algorand/Ethereum SDK calls, HTTP requests)
  are inputs of the embedded functions: each call site takes the settled
  outcome of the external call as an explicit argument.
-/

namespace CarbonBridge

/-- Chain identifiers, from `src/src/types.ts` (`ChainType`). -/
inductive ChainType
  | algorand
  | ethereum
  deriving DecidableEq

/-- The string value of a `ChainType` enum member (`"algorand"` / `"ethereum"`). -/
def ChainType.str : ChainType → String
  | .algorand => "algorand"
  | .ethereum => "ethereum"

/-- Transaction lifecycle states, from `src/src/types.ts` (`BridgeStatus`). -/
inductive BridgeStatus
  | pending
  | locked
  | minted
  | burned
  | released
  | failed
  deriving DecidableEq

/-- A bignumber.js value: a finite decimal (held as a rational), `NaN`, or an
infinity.  `-0` is not distinguished from `0`. -/
inductive BigNum
  | num (q : ℚ)
  | nan
  | posInf
  | negInf
  deriving DecidableEq

/-- A bridge transaction, from `src/src/types.ts` (`BridgeTransaction`). -/
structure BridgeTransaction where
  id : String
  sourceChain : ChainType
  targetChain : ChainType
  sourceAssetId : String
  targetAssetId : String
  amount : BigNum
  sender : String
  receiver : String
  status : BridgeStatus
  sourceTransactionId : Option String := none
  targetTransactionId : Option String := none
  timestamp : Int
  nonce : Int
  deriving DecidableEq

/-- Result of verification, from `src/src/types.ts` (`VerificationResult`). -/
structure VerificationResult where
  isValid : Bool
  signatures : List String
  timestamp : Int
  error : Option String := none
  deriving DecidableEq

/-- Result of a bridge operation, from `src/src/types.ts` (`BridgeResult`).
The free-form `receipt` field carries no modelled information. -/
structure BridgeResult where
  success : Bool
  transactionId : String
  bridgeId : String
  status : BridgeStatus
  error : Option String := none
  deriving DecidableEq

/-- Carbon credit metadata, from `src/src/types.ts` (`CarbonCreditMetadata`). -/
structure CarbonCreditMetadata where
  projectId : String
  vintage : Int
  standard : String
  creditType : String
  serialNumber : String
  issuanceDate : Int
  retirementStatus : Bool
  deriving DecidableEq

/-- The part of `BridgeConfig` (`src/src/types.ts`) the verification engine
reads: the verifier endpoint list and the signature threshold. -/
structure BridgeConfig where
  verifiers : List String
  minVerifierSignatures : Int
  deriving DecidableEq

/-- `isTransactionTimedOut` from `src/src/utils.ts` lines 203-222.
`now` models `Date.now()`; a thrown `Error` becomes `Except.error` with the
thrown message.  The `isNaN` guards of the source have no integer inhabitant
and are therefore invisible here. -/
def isTransactionTimedOut (now timestamp timeoutMs : Int) : Except String Bool :=
  if timestamp ≤ 0 then .error "Invalid transaction timestamp"
  else if timeoutMs ≤ 0 then .error "Invalid timeout value"
  else if timestamp > now + 300000 then .ok false
  else .ok (decide (now - timestamp > timeoutMs))

/-- `createTransactionHash` from `src/src/utils.ts` lines 167-183.  The source
feeds the six fields, in this order, into one SHA-256 stream and returns the
hex digest; `digest` abstracts the SHA-256-and-hex-encode step of the `crypto`
library (a fixed function of the byte stream), which the claims never need to
compute. -/
def createTransactionHash (digest : String → String)
    (sourceChain targetChain : ChainType)
    (sender receiver amount : String) (nonce : Int) : String :=
  digest (sourceChain.str ++ targetChain.str ++ sender ++ receiver ++ amount
    ++ toString nonce)

/-- `validateCarbonMetadata` from `src/src/utils.ts` lines 251-273, on a
well-typed metadata record (so the `typeof` test always passes); JavaScript
falsiness of the required fields is emptiness for the strings and zero for
`vintage`. -/
def validateCarbonMetadata (m : CarbonCreditMetadata) : Option String :=
  if m.projectId = "" then some "Project ID is required"
  else if m.vintage = 0 then some "Valid vintage year is required"
  else if m.standard = "" then some "Carbon standard is required"
  else if m.serialNumber = "" then some "Serial number is required"
  else none

/-- bignumber.js `ROUND_HALF_UP` (the default rounding mode): round to the
nearest integer, halves away from zero. -/
def roundHalfAwayFromZero (q : ℚ) : ℤ :=
  if 0 ≤ q then ⌊q + 1 / 2⌋ else -⌊-q + 1 / 2⌋

/-- bignumber.js division: the quotient rounded to `DECIMAL_PLACES = 20`
decimal places (the library default) with the default rounding mode. -/
def bnDiv (a b : ℚ) : ℚ :=
  (roundHalfAwayFromZero (a / b * 10 ^ 20) : ℚ) / 10 ^ 20

/-- `convertAmount` from `src/src/utils.ts` lines 88-124.  The amount argument
is taken after `new BigNumber(amount)`: a `BigNum`.  `.error` carries the
thrown message.  Multiplication by a power of ten is exact in bignumber.js;
division rounds (see `bnDiv`). -/
def convertAmount (amount : BigNum) (fromDecimals toDecimals : Int) :
    Except String BigNum :=
  if fromDecimals < 0 ∨ toDecimals < 0 then
    .error "Decimal values must be non-negative"
  else
    match amount with
    | .num value =>
      if fromDecimals = toDecimals then .ok (.num value)
      else if 0 < toDecimals - fromDecimals then
        .ok (.num (value * 10 ^ (toDecimals - fromDecimals).natAbs))
      else .ok (.num (bnDiv value (10 ^ (toDecimals - fromDecimals).natAbs)))
    | _ => .error "Invalid amount value"

/-! ## Verification engine (`src/src/verification.ts`) -/

/-- A JSON value, for the verifier HTTP response body. -/
inductive Json
  | jnull
  | jbool (b : Bool)
  | jnum (n : Int)
  | jstr (s : String)
  | jarr (xs : List Json)
  | jobj (fields : List (String × Json))

/-- The test `typeof data === 'object' && data !== null && 'signature' in data
&& typeof data.signature === 'string'` together with the read `data.signature`
(verification.ts lines 452 and 458): `some s` exactly when the body is an
object whose `signature` member is the string `s`. -/
def Json.sigField : Json → Option String
  | .jobj fields =>
    match fields.lookup "signature" with
    | some (.jstr s) => some s
    | _ => none
  | _ => none

/-- A settled verifier HTTP response.  `body = none` models a body on which
`response.json()` throws (malformed JSON); the exception is caught by the
surrounding handler. -/
structure HttpResponse where
  ok : Bool
  status : Int
  body : Option Json

/-- `requestVerifierSignature` from `src/src/verification.ts` lines 418-478,
as a function of the settled outcome of the `fetch` call; `resp = none` models
a rejected or aborted (timed out) fetch, whose exception the source catches
and turns into `null`.  The source's first format test (line 452) returns
`null` when the well-formed-signature test *succeeds*, and its second,
identical test (line 458) only runs when the first failed, so the `return
data.signature` branch is unreachable; the embedding keeps both tests as
written. -/
def requestVerifierSignature (resp : Option HttpResponse) : Option String :=
  match resp with
  | none => none
  | some r =>
    if !r.ok then none
    else
      match r.body with
      | none => none
      | some data =>
        if (data.sigField).isSome then none
        else
          match data.sigField with
          | some s => some s
          | none => none

/-- `collectVerifierSignatures` from `src/src/verification.ts` lines 374-408:
every configured verifier is asked concurrently and the null outcomes are
dropped, keeping order.  `outcomeOf` gives the settled result of
`requestVerifierSignature` for each verifier URL. -/
def collectVerifierSignatures (verifiers : List String)
    (outcomeOf : String → Option String) : List String :=
  (verifiers.map outcomeOf).filterMap id

/-- `verifyTransaction` from `src/src/verification.ts` lines 21-92.
`now` models `Date.now()`; `proofOk` the outcome of the chain-specific
on-chain proof check (`verifyAlgorandTransaction` /
`verifyTargetChainTransaction`, both network-bound); `outcomeOf` the settled
per-verifier request outcomes.  A throw out of `isTransactionTimedOut` is
caught by the surrounding `try` and reported through the error field. -/
def verifyTransaction (tx : BridgeTransaction) (cfg : BridgeConfig)
    (now : Int) (proofOk : Bool) (outcomeOf : String → Option String) :
    VerificationResult :=
  match isTransactionTimedOut now tx.timestamp 3600000 with
  | .error e =>
    { isValid := false, signatures := [], timestamp := now, error := some e }
  | .ok true =>
    { isValid := false, signatures := [], timestamp := now,
      error := some "Transaction timed out" }
  | .ok false =>
    if proofOk = false then
      { isValid := false, signatures := [], timestamp := now,
        error := some "Transaction verification failed" }
    else
      let signatures := collectVerifierSignatures cfg.verifiers outcomeOf
      { isValid := decide ((signatures.length : Int) ≥ cfg.minVerifierSignatures),
        signatures := signatures, timestamp := now }

/-- The hash signed in `signTransaction` (`src/src/verification.ts` lines
502-514): `createTransactionHash` applied to the transaction's fields, with
`amount.toString()` abstracted by `toStr`. -/
def signTransactionHash (digest : String → String) (toStr : BigNum → String)
    (tx : BridgeTransaction) : String :=
  createTransactionHash digest tx.sourceChain tx.targetChain tx.sender
    tx.receiver (toStr tx.amount) tx.nonce

/-- The hash checked in `verifySignature` (`src/src/verification.ts` lines
574-588). -/
def verifySignatureHash (digest : String → String) (toStr : BigNum → String)
    (tx : BridgeTransaction) : String :=
  createTransactionHash digest tx.sourceChain tx.targetChain tx.sender
    tx.receiver (toStr tx.amount) tx.nonce

/-- The hash sent to the verifiers in `collectVerifierSignatures`
(`src/src/verification.ts` lines 379-386). -/
def collectVerifierSignaturesHash (digest : String → String)
    (toStr : BigNum → String) (tx : BridgeTransaction) : String :=
  createTransactionHash digest tx.sourceChain tx.targetChain tx.sender
    tx.receiver (toStr tx.amount) tx.nonce

/-! ## Bridge orchestrator (`src/src/bridge.ts`) -/

/-- The orchestrator's `transactions: Map<string, BridgeTransaction>`.
A `set` conses the new binding; `get` (`Map.get`) takes the most recent
binding, so the list behaves as a last-writer-wins keyed store. -/
def TxStore := List (String × BridgeTransaction)

/-- `Map.get` -/
def TxStore.get (s : TxStore) (id : String) : Option BridgeTransaction :=
  List.lookup id s

/-- `Map.set` -/
def TxStore.set (s : TxStore) (id : String) (tx : BridgeTransaction) : TxStore :=
  (id, tx) :: s

/-- Events the orchestrator's `setupEventListeners` subscribes to, each
carrying the event's transaction snapshot (`event.transaction`). -/
inductive OrchEvent
  | lock (tx : BridgeTransaction)
  | burn (tx : BridgeTransaction)
  | verification (tx : BridgeTransaction)
  | timeout (tx : BridgeTransaction)

/-- The transaction snapshot carried by an event. -/
def OrchEvent.tx : OrchEvent → BridgeTransaction
  | .lock t => t
  | .burn t => t
  | .verification t => t
  | .timeout t => t

/-- Settled outcomes of the external calls one handler invocation can make:
the `verifyTransaction` result for the event's transaction and the chain
adapters' mint / release results (both adapters catch internally and always
resolve to a `BridgeResult`). -/
structure StepEnv where
  verification : VerificationResult
  mintResult : BridgeResult
  releaseResult : BridgeResult

/-- `mintOnTargetChain` from `src/src/bridge.ts` lines 202-229: on adapter
success the transaction is stored with status `MINTED` and the target
transaction id; on adapter failure the method throws (the caller catches and
only emits an error event), leaving the store as it was. -/
def mintOnTargetChain (store : TxStore) (tx : BridgeTransaction)
    (mintResult : BridgeResult) : TxStore :=
  if mintResult.success then
    store.set tx.id
      { tx with status := .minted,
                targetTransactionId := some mintResult.transactionId }
  else store

/-- `releaseOnAlgorand` from `src/src/bridge.ts` lines 236-262, mirror of
`mintOnTargetChain` with status `RELEASED`. -/
def releaseOnAlgorand (store : TxStore) (tx : BridgeTransaction)
    (releaseResult : BridgeResult) : TxStore :=
  if releaseResult.success then
    store.set tx.id
      { tx with status := .released,
                targetTransactionId := some releaseResult.transactionId }
  else store

/-- `handleLockEvent` from `src/src/bridge.ts` lines 85-113: store the
snapshot, verify, and mint only under `verification.isValid`. -/
def handleLockEvent (store : TxStore) (tx : BridgeTransaction)
    (env : StepEnv) : TxStore :=
  let s1 := store.set tx.id tx
  if env.verification.isValid then mintOnTargetChain s1 tx env.mintResult
  else s1

/-- `handleBurnEvent` from `src/src/bridge.ts` lines 120-148. -/
def handleBurnEvent (store : TxStore) (tx : BridgeTransaction)
    (env : StepEnv) : TxStore :=
  let s1 := store.set tx.id tx
  if env.verification.isValid then releaseOnAlgorand s1 tx env.releaseResult
  else s1

/-- The object spread on `src/src/bridge.ts` line 159-162,
`\x7b...tx, ...event.transaction\x7d`: every declared field of the event's
transaction overrides the stored one; the optional native-transaction-id
fields override only when present on the event's transaction. -/
def mergeTx (old new : BridgeTransaction) : BridgeTransaction :=
  { new with
    sourceTransactionId :=
      match new.sourceTransactionId with
      | some v => some v
      | none => old.sourceTransactionId,
    targetTransactionId :=
      match new.targetTransactionId with
      | some v => some v
      | none => old.targetTransactionId }

/-- `handleVerificationEvent` from `src/src/bridge.ts` lines 155-164. -/
def handleVerificationEvent (store : TxStore) (etx : BridgeTransaction) :
    TxStore :=
  match store.get etx.id with
  | some tx => store.set tx.id (mergeTx tx etx)
  | none => store

/-- `handleTimeoutEvent` from `src/src/bridge.ts` lines 171-195: the
compensating `releaseCarbonCredits` call (made when the snapshot says an
Algorand-sourced transaction is still `LOCKED`) touches only the chain and
never rejects, after which the handler unconditionally stores the event's
snapshot with status `FAILED`. -/
def handleTimeoutEvent (store : TxStore) (tx : BridgeTransaction) : TxStore :=
  store.set tx.id { tx with status := .failed }

/-- One orchestrator reaction to one delivered event. -/
def orchStep (store : TxStore) (ev : OrchEvent) (env : StepEnv) : TxStore :=
  match ev with
  | .lock tx => handleLockEvent store tx env
  | .burn tx => handleBurnEvent store tx env
  | .verification tx => handleVerificationEvent store tx
  | .timeout tx => handleTimeoutEvent store tx

/-- Whether a store lookup found a transaction in one of the two
mint-side terminal states. -/
def mintedOrReleased : Option BridgeTransaction → Bool
  | some tx => tx.status = .minted ∨ tx.status = .released
  | none => false

/-- `getTransactionStatus` from `src/src/bridge.ts` lines 440-463:
local lookup first; otherwise the Algorand adapter's answer unless it is
`FAILED`, in which case the target-chain adapter's answer
(`algorandStatus` / `targetStatus` are the two adapters' settled answers;
both adapters catch internally and always resolve). -/
def getTransactionStatus (store : TxStore) (bridgeId : String)
    (algorandStatus targetStatus : BridgeStatus) : BridgeStatus :=
  match store.get bridgeId with
  | some tx => tx.status
  | none => if algorandStatus ≠ .failed then algorandStatus else targetStatus

/-- Modelled from the spec's words (not from the source), for comparison with
`getTransactionStatus`: "local lookup first; if absent, queries both Chain
Adapters' native status lookups as a fallback, preferring the source chain's
answer unless it reports failure", in which case the other chain's answer is
returned.  `sourceChain` is the source chain of the transaction the queried
bridge id belongs to. -/
def getTransactionStatusSpec (sourceChain : ChainType) (store : TxStore)
    (bridgeId : String) (algorandStatus targetStatus : BridgeStatus) :
    BridgeStatus :=
  match store.get bridgeId with
  | some tx => tx.status
  | none =>
    let sourceAnswer :=
      match sourceChain with
      | .algorand => algorandStatus
      | .ethereum => targetStatus
    let otherAnswer :=
      match sourceChain with
      | .algorand => targetStatus
      | .ethereum => algorandStatus
    if sourceAnswer ≠ .failed then sourceAnswer else otherAnswer

/-! ## Public bridging operations and chain handlers
(`src/src/bridge.ts`, `src/src/chains/algorand/index.ts`, the Ethereum
handler source) -/

/-- The `amount` argument of `bridgeToTargetChain`
(`number | string | BigNumber`), restricted to number and BigNumber forms:
string amounts go through bignumber.js parsing, which is not modelled. -/
inductive AmountArg
  | missing
  | num (q : ℚ)
  | nanNum
  | posInfNum
  | negInfNum
  | big (b : BigNum)
  deriving DecidableEq

/-- JavaScript falsiness of the amount argument (`!amount`): `undefined`, the
number `0`, and `NaN` are falsy; every object (BigNumber instance) and every
non-zero number is truthy. -/
def AmountArg.isFalsy : AmountArg → Bool
  | .missing => true
  | .num q => q = 0
  | .nanNum => true
  | .posInfNum => false
  | .negInfNum => false
  | .big _ => false

/-- `new BigNumber(amount)` on the modelled argument forms. -/
def AmountArg.toBigNum : AmountArg → BigNum
  | .missing => .nan
  | .num q => .num q
  | .nanNum => .nan
  | .posInfNum => .posInf
  | .negInfNum => .negInf
  | .big b => b

/-- bignumber.js `isNaN()`. -/
def BigNum.isNaNum : BigNum → Bool
  | .nan => true
  | _ => false

/-- bignumber.js `isPositive()`: true iff the sign of the value is positive.
Zero has positive sign in bignumber.js (only `-0` is negative, and `-0` is
not distinguished here), so `new BigNumber(0).isPositive()` is `true`. -/
def BigNum.isPositive : BigNum → Bool
  | .num q => decide (0 ≤ q)
  | .nan => false
  | .posInf => true
  | .negInf => false

/-- The error result built by the `catch` blocks of the public bridging
operations: `success: false`, `status: FAILED`, and the caught message with
the `error.message || "Unknown error"` fallback. -/
def errResult (msg : String) : BridgeResult :=
  { success := false, transactionId := "", bridgeId := "", status := .failed,
    error := some (if msg = "" then "Unknown error" else msg) }

/-- The catch block of `bridgeToTargetChain` (`src/src/bridge.ts` lines
323-365): it builds the FAILED result, then calls
`bridgeEvents.emitBridgeEvent(BridgeEventType.ERROR, ...)` before returning
it.  The events module is not under `src/`; per the spec (section 9) it is a
process-wide Node `EventEmitter` singleton, and Node's `emit` treats the
event name `"error"` specially: with no `error` listener registered it throws
`ERR_UNHANDLED_ERROR` (the payload is not an `Error`).  The orchestrator
itself registers only lock/burn/verification/timeout listeners
(bridge.ts lines 61-78).  So with a registered `error` listener the catch
block returns the result, and without one it rejects, modelled by
`Except.error`. -/
def bridgeCatch (msg : String) (store : TxStore) (errorListener : Bool) :
    Except String (BridgeResult × Bool × TxStore) :=
  if errorListener then .ok (errResult msg, false, store)
  else .error "ERR_UNHANDLED_ERROR"

/-- `bridgeToTargetChain` from `src/src/bridge.ts` lines 274-366 as a function
of the settled external outcomes: `fmtSender` / `fmtReceiver` are the
`formatAddress` results (which throw for invalid addresses), `lockResult` the
Algorand adapter's `lockCarbonCredits` result, `lockEffect` the effect the
lock's synchronously delivered LOCK event has on the transaction store, and
`errorListener` whether an `error` listener is registered on the event bus
(see `bridgeCatch`: every caught failure rejects when there is none).
On normal return, carries the result, whether the lock operation was invoked,
and the store. -/
def bridgeToTargetChain (store : TxStore) (sender receiver : String)
    (amount : AmountArg) (metadata : Option CarbonCreditMetadata)
    (fmtSender fmtReceiver : Except String String)
    (lockResult : BridgeResult) (lockEffect : TxStore → TxStore)
    (errorListener : Bool) :
    Except String (BridgeResult × Bool × TxStore) :=
  if sender = "" then
    bridgeCatch "Sender address is required" store errorListener
  else if receiver = "" then
    bridgeCatch "Receiver address is required" store errorListener
  else if amount.isFalsy then
    bridgeCatch "Amount is required" store errorListener
  else
    if amount.toBigNum.isNaNum || !amount.toBigNum.isPositive then
      bridgeCatch "Amount must be a positive number" store errorListener
    else
      match fmtSender with
      | .error e => bridgeCatch e store errorListener
      | .ok _ =>
        match fmtReceiver with
        | .error e => bridgeCatch e store errorListener
        | .ok _ =>
          match metadata with
          | some m =>
            match validateCarbonMetadata m with
            | some msg =>
              bridgeCatch ("Invalid metadata: " ++ msg) store errorListener
            | none => .ok (lockResult, true, lockEffect store)
          | none => .ok (lockResult, true, lockEffect store)

/-- `bridgeToAlgorand` from `src/src/bridge.ts` lines 377-413: no input
validation of its own; address formatting throws are caught, otherwise the
target-chain adapter's `burnWrappedCarbonCredits` result is echoed. -/
def bridgeToAlgorand (_sender _receiver : String) (_amount : AmountArg)
    (fmtSender fmtReceiver : Except String String)
    (burnResult : BridgeResult) : BridgeResult :=
  match fmtSender with
  | .error e => errResult e
  | .ok _ =>
    match fmtReceiver with
    | .error e => errResult e
    | .ok _ => burnResult

/-- `lockCarbonCredits` from `src/src/chains/algorand/index.ts` lines 51-148
as a function of the settled external outcomes: `bridgeId` the generated id,
`params` the `getTransactionParams` round trip (carrying `firstRound`), and
`build` any throw while building, grouping or encoding the unsigned
transactions.  The catch block returns an empty `bridgeId`. -/
def lockCarbonCredits (bridgeAccountConfigured : Bool) (bridgeId : String)
    (params : Except String Int) (build : Except String Unit) : BridgeResult :=
  if !bridgeAccountConfigured then
    { success := false, transactionId := "", bridgeId := "", status := .failed,
      error := some "Bridge account not configured" }
  else
    match params with
    | .error e =>
      { success := false, transactionId := "", bridgeId := "",
        status := .failed,
        error := some (if e = "" then "Unknown error" else e) }
    | .ok _ =>
      match build with
      | .error e =>
        { success := false, transactionId := "", bridgeId := "",
          status := .failed,
          error := some (if e = "" then "Unknown error" else e) }
      | .ok _ =>
        { success := true, transactionId := "", bridgeId := bridgeId,
          status := .pending }

/-- `releaseCarbonCredits` from `src/src/chains/algorand/index.ts` lines
159-246, with `send` the `sendRawTransaction` round trip carrying the native
transaction id.  Unlike the lock path, the catch block echoes the caller's
`bridgeId`. -/
def releaseCarbonCredits (bridgeId : String) (bridgeAccountConfigured : Bool)
    (params : Except String Int) (build : Except String Unit)
    (send : Except String String) : BridgeResult :=
  if !bridgeAccountConfigured then
    { success := false, transactionId := "", bridgeId := bridgeId,
      status := .failed, error := some "Bridge account not configured" }
  else
    match params with
    | .error e =>
      { success := false, transactionId := "", bridgeId := bridgeId,
        status := .failed,
        error := some (if e = "" then "Unknown error" else e) }
    | .ok _ =>
      match build with
      | .error e =>
        { success := false, transactionId := "", bridgeId := bridgeId,
          status := .failed,
          error := some (if e = "" then "Unknown error" else e) }
      | .ok _ =>
        match send with
        | .error e =>
          { success := false, transactionId := "", bridgeId := bridgeId,
            status := .failed,
            error := some (if e = "" then "Unknown error" else e) }
        | .ok txId =>
          { success := true, transactionId := txId, bridgeId := bridgeId,
            status := .released }

/-- `burnWrappedCarbonCredits` from the Ethereum handler source lines
191-252: builds and returns an unsigned burn transaction; any throw while
encoding is caught into a failed result with an empty `bridgeId`. -/
def burnWrappedCarbonCredits (bridgeId : String)
    (build : Except String Unit) : BridgeResult :=
  match build with
  | .error e =>
    { success := false, transactionId := "", bridgeId := "", status := .failed,
      error := some (if e = "" then "Unknown error" else e) }
  | .ok _ =>
    { success := true, transactionId := "", bridgeId := bridgeId,
      status := .pending }

/-! ## Auxiliary predicates and sample data for the claim theorems -/

/-- The error shape every public bridging operation's failure result must
have: status `FAILED` and a non-empty error message. -/
def failShape (r : BridgeResult) : Prop :=
  r.success = false → r.status = .failed ∧ ∃ m, r.error = some m ∧ m ≠ ""

/-- A sample in-flight transaction used by concrete witnesses. -/
def sampleTx : BridgeTransaction :=
  { id := "t1", sourceChain := .algorand, targetChain := .ethereum,
    sourceAssetId := "42", targetAssetId := "0xToken", amount := .num 100,
    sender := "SENDER", receiver := "0xRECV", status := .locked,
    timestamp := 1000, nonce := 7 }

/-- A sample configuration with three verifiers and a threshold of two. -/
def sampleCfg : BridgeConfig :=
  { verifiers := ["v1", "v2", "v3"], minVerifierSignatures := 2 }

/-- The sample transaction as first observed (status `PENDING`). -/
def sampleTxPending : BridgeTransaction := { sampleTx with status := .pending }

/-- Sample settled external outcomes for one handler step: verification
succeeded and both adapters succeed. -/
def sampleEnv : StepEnv :=
  { verification :=
      { isValid := true, signatures := ["s1", "s2"], timestamp := 2000 },
    mintResult :=
      { success := true, transactionId := "0xmint", bridgeId := "t1",
        status := .minted },
    releaseResult :=
      { success := true, transactionId := "algorel", bridgeId := "t1",
        status := .released } }

/-! ## Helper lemmas -/

theorem TxStore.get_set_self (s : TxStore) (id : String)
    (tx : BridgeTransaction) : (s.set id tx).get id = some tx := by
  simp [TxStore.get, TxStore.set, List.lookup]

theorem TxStore.get_set_ne (s : TxStore) (id id' : String)
    (tx : BridgeTransaction) (h : id' ≠ id) :
    (s.set id tx).get id' = s.get id' := by
  simp only [TxStore.get, TxStore.set, List.lookup]
  rw [beq_eq_false_iff_ne.mpr h]

/-! ## Claim theorems -/

/-- C1: for every transaction that is not timed out and passes the on-chain
proof check, and every set of per-verifier request outcomes,
`verifyTransaction` reports `isValid = true` iff the number of accepted
(non-null) verifier signatures reaches `minVerifierSignatures`, and its
`signatures` field is exactly the list of accepted signatures. -/
theorem verifyTransaction_quorum_iff (tx : BridgeTransaction)
    (cfg : BridgeConfig) (now : Int) (proofOk : Bool)
    (outcomeOf : String → Option String)
    (hnt : isTransactionTimedOut now tx.timestamp 3600000 = .ok false)
    (hp : proofOk = true) :
    ((verifyTransaction tx cfg now proofOk outcomeOf).isValid = true ↔
      cfg.minVerifierSignatures ≤
        ((((cfg.verifiers.map outcomeOf).filterMap id).length : Int))) ∧
    (verifyTransaction tx cfg now proofOk outcomeOf).signatures =
      (cfg.verifiers.map outcomeOf).filterMap id := by
  unfold verifyTransaction
  rw [hnt, hp]
  simp [collectVerifierSignatures, ge_iff_le]

/-- Witness for C1 at a concrete transaction, configuration and outcome set. -/
theorem verifyTransaction_quorum_iff_witness :
    isTransactionTimedOut 2000 sampleTx.timestamp 3600000 = .ok false ∧
    (((verifyTransaction sampleTx sampleCfg 2000 true
          (fun _ => some "sig")).isValid = true ↔
        sampleCfg.minVerifierSignatures ≤
          ((((sampleCfg.verifiers.map (fun _ => some "sig")).filterMap
              id).length : Int))) ∧
      (verifyTransaction sampleTx sampleCfg 2000 true
          (fun _ => some "sig")).signatures =
        (sampleCfg.verifiers.map (fun _ => some "sig")).filterMap id) :=
  ⟨by rfl,
   verifyTransaction_quorum_iff sampleTx sampleCfg 2000 true
     (fun _ => some "sig") (by rfl) rfl⟩

/-- C2: a successful verifier response whose JSON body is an object with a
string `signature` member is nevertheless turned into `null`: the first
format test (verification.ts line 452) rejects exactly the well-formed
responses, so the accept branch below it can never run.  Evaluated at the
failing input `HTTP 200` with body containing the signature string `"abc"`. -/
theorem requestVerifierSignature_rejects_wellFormed :
    requestVerifierSignature
      (some { ok := true, status := 200,
              body := some (.jobj [("signature", .jstr "abc")]) }) = none ∧
    Json.sigField (.jobj [("signature", .jstr "abc")]) = some "abc" :=
  ⟨rfl, rfl⟩

/-- C8: the canonical transaction hash is a function of exactly
`(sourceChain, targetChain, sender, receiver, amount-as-string, nonce)` in
that fixed order, and the three hashing sites — signing, signature
verification, and verifier signature collection — agree byte-for-byte on any
two transactions that coincide on those six fields (whatever else differs). -/
theorem transactionHash_canonical (digest : String → String)
    (toStr : BigNum → String) (tx1 tx2 : BridgeTransaction)
    (h1 : tx1.sourceChain = tx2.sourceChain)
    (h2 : tx1.targetChain = tx2.targetChain)
    (h3 : tx1.sender = tx2.sender)
    (h4 : tx1.receiver = tx2.receiver)
    (h5 : toStr tx1.amount = toStr tx2.amount)
    (h6 : tx1.nonce = tx2.nonce) :
    signTransactionHash digest toStr tx1 =
      verifySignatureHash digest toStr tx2 ∧
    verifySignatureHash digest toStr tx1 =
      collectVerifierSignaturesHash digest toStr tx2 ∧
    signTransactionHash digest toStr tx1 =
      collectVerifierSignaturesHash digest toStr tx2 := by
  unfold signTransactionHash verifySignatureHash
    collectVerifierSignaturesHash createTransactionHash
  rw [h1, h2, h3, h4, h5, h6]
  exact ⟨rfl, rfl, rfl⟩

/-- Witness for C8: two transactions sharing the six hashed fields but
differing in id, status, asset ids and timestamp hash identically at every
site. -/
theorem transactionHash_canonical_witness :
    sampleTx.sourceChain =
      ({ sampleTx with id := "t2", status := .minted, sourceAssetId := "43",
                       timestamp := 9999 } : BridgeTransaction).sourceChain ∧
    signTransactionHash (fun s => s) (fun _ => "100") sampleTx =
      collectVerifierSignaturesHash (fun s => s) (fun _ => "100")
        { sampleTx with id := "t2", status := .minted, sourceAssetId := "43",
                        timestamp := 9999 } :=
  ⟨rfl,
   (transactionHash_canonical (fun s => s) (fun _ => "100") sampleTx
     { sampleTx with id := "t2", status := .minted, sourceAssetId := "43",
                     timestamp := 9999 }
     rfl rfl rfl rfl rfl rfl).2.2⟩

/-- C3 counterexample: `handleVerificationEvent` copies the event snapshot's
status into the store verbatim, so a VERIFICATION event whose snapshot
already says `MINTED` makes the stored status become `MINTED` although
the handler consumes no `VerificationResult` at all. -/
theorem handleVerificationEvent_writes_minted_counterexample :
    (TxStore.get (handleVerificationEvent (TxStore.set [] "t1" sampleTx)
        { sampleTx with status := .minted }) "t1").map
        BridgeTransaction.status = some .minted ∧
    (TxStore.get (TxStore.set [] "t1" sampleTx) "t1").map
        BridgeTransaction.status = some .locked :=
  ⟨rfl, rfl⟩

/-- C3 (amended): for every handled event whose transaction snapshot is not
already `MINTED`/`RELEASED` (true of every event this codebase emits on the
four handled channels), a stored status can become `MINTED` or `RELEASED` in
one orchestrator step only through the lock or burn handler for that very
transaction id, and only when the step's verification result has
`isValid = true`. -/
theorem orchStep_terminal_status_requires_valid_verification
    (store : TxStore) (ev : OrchEvent) (env : StepEnv) (id : String)
    (hsnap : mintedOrReleased (some ev.tx) = false)
    (hbefore : mintedOrReleased (store.get id) = false)
    (hafter : mintedOrReleased ((orchStep store ev env).get id) = true) :
    env.verification.isValid = true ∧
    (ev = .lock ev.tx ∨ ev = .burn ev.tx) ∧ ev.tx.id = id := by
  cases ev with
  | lock tx =>
    simp only [orchStep, handleLockEvent, OrchEvent.tx] at hafter hsnap ⊢
    by_cases hv : env.verification.isValid
    · rw [if_pos hv] at hafter
      unfold mintOnTargetChain at hafter
      by_cases hm : env.mintResult.success
      · rw [if_pos hm] at hafter
        by_cases hid : id = tx.id
        · subst hid
          exact ⟨hv, Or.inl (by trivial), rfl⟩
        · rw [TxStore.get_set_ne _ _ _ _ hid,
            TxStore.get_set_ne _ _ _ _ hid, hbefore] at hafter
          cases hafter
      · rw [if_neg hm] at hafter
        by_cases hid : id = tx.id
        · subst hid
          rw [TxStore.get_set_self, hsnap] at hafter
          cases hafter
        · rw [TxStore.get_set_ne _ _ _ _ hid, hbefore] at hafter
          cases hafter
    · rw [if_neg hv] at hafter
      by_cases hid : id = tx.id
      · subst hid
        rw [TxStore.get_set_self, hsnap] at hafter
        cases hafter
      · rw [TxStore.get_set_ne _ _ _ _ hid, hbefore] at hafter
        cases hafter
  | burn tx =>
    simp only [orchStep, handleBurnEvent, OrchEvent.tx] at hafter hsnap ⊢
    by_cases hv : env.verification.isValid
    · rw [if_pos hv] at hafter
      unfold releaseOnAlgorand at hafter
      by_cases hm : env.releaseResult.success
      · rw [if_pos hm] at hafter
        by_cases hid : id = tx.id
        · subst hid
          exact ⟨hv, Or.inr (by trivial), rfl⟩
        · rw [TxStore.get_set_ne _ _ _ _ hid,
            TxStore.get_set_ne _ _ _ _ hid, hbefore] at hafter
          cases hafter
      · rw [if_neg hm] at hafter
        by_cases hid : id = tx.id
        · subst hid
          rw [TxStore.get_set_self, hsnap] at hafter
          cases hafter
        · rw [TxStore.get_set_ne _ _ _ _ hid, hbefore] at hafter
          cases hafter
    · rw [if_neg hv] at hafter
      by_cases hid : id = tx.id
      · subst hid
        rw [TxStore.get_set_self, hsnap] at hafter
        cases hafter
      · rw [TxStore.get_set_ne _ _ _ _ hid, hbefore] at hafter
        cases hafter
  | verification etx =>
    simp only [orchStep, handleVerificationEvent, OrchEvent.tx]
      at hafter hsnap ⊢
    cases hg : store.get etx.id with
    | none =>
      simp only [hg, hbefore] at hafter
      cases hafter
    | some old =>
      simp only [hg] at hafter
      by_cases hid : id = old.id
      · subst hid
        rw [TxStore.get_set_self] at hafter
        have hms : mintedOrReleased (some (mergeTx old etx)) =
            mintedOrReleased (some etx) := by
          simp [mintedOrReleased, mergeTx]
        rw [hms, hsnap] at hafter
        cases hafter
      · rw [TxStore.get_set_ne _ _ _ _ hid, hbefore] at hafter
        cases hafter
  | timeout tx =>
    simp only [orchStep, handleTimeoutEvent, OrchEvent.tx] at hafter hsnap ⊢
    by_cases hid : id = tx.id
    · subst hid
      rw [TxStore.get_set_self] at hafter
      simp [mintedOrReleased] at hafter
    · rw [TxStore.get_set_ne _ _ _ _ hid, hbefore] at hafter
      cases hafter

/-- Witness for C3 (amended) at a concrete lock step that mints. -/
theorem orchStep_terminal_status_witness :
    mintedOrReleased (some (OrchEvent.lock sampleTxPending).tx) = false ∧
    mintedOrReleased (TxStore.get [] "t1") = false ∧
    mintedOrReleased
      ((orchStep [] (.lock sampleTxPending) sampleEnv).get "t1") = true ∧
    (sampleEnv.verification.isValid = true ∧
      (OrchEvent.lock sampleTxPending = .lock (OrchEvent.lock sampleTxPending).tx ∨
        OrchEvent.lock sampleTxPending = .burn (OrchEvent.lock sampleTxPending).tx) ∧
      (OrchEvent.lock sampleTxPending).tx.id = "t1") :=
  ⟨rfl, rfl, rfl,
   orchStep_terminal_status_requires_valid_verification []
     (.lock sampleTxPending) sampleEnv "t1" rfl rfl rfl⟩

/-- C4: terminality is violated by the code: `handleTimeoutEvent`
unconditionally stores the event snapshot with status `FAILED`
(bridge.ts lines 190-191), so a transaction whose stored status is `MINTED`
is overwritten to `FAILED` by a later TIMEOUT event for the same id. -/
theorem handleTimeoutEvent_overwrites_minted :
    (TxStore.get (TxStore.set [] "t1" { sampleTx with status := .minted })
        "t1").map BridgeTransaction.status = some .minted ∧
    (TxStore.get (handleTimeoutEvent
        (TxStore.set [] "t1" { sampleTx with status := .minted }) sampleTx)
        "t1").map BridgeTransaction.status = some .failed :=
  ⟨rfl, rfl⟩

/-- C5 counterexample: at `timestamp = 0` (with `now = 1000000`,
`timeoutMs = 1`) the claim predicts `true` — the timestamp is not in the
future and `now - timestamp > timeoutMs` — but the function throws
`Invalid transaction timestamp` instead of returning. -/
theorem isTransactionTimedOut_throws_counterexample :
    isTransactionTimedOut 1000000 0 1 =
      .error "Invalid transaction timestamp" ∧
    1000000 - (0 : Int) > 1 ∧ ¬((0 : Int) > 1000000 + 300000) :=
  ⟨rfl, by decide, by decide⟩

/-- C5 (amended): for all `timestamp > 0` and `timeoutMs > 0`,
`isTransactionTimedOut` returns `now - timestamp > timeoutMs`, except that a
timestamp more than 5 minutes (300000 ms) in the future returns `false`. -/
theorem isTransactionTimedOut_spec (now timestamp timeoutMs : Int)
    (hts : 0 < timestamp) (htm : 0 < timeoutMs) :
    (timestamp ≤ now + 300000 →
      (isTransactionTimedOut now timestamp timeoutMs = .ok true ↔
        now - timestamp > timeoutMs)) ∧
    (timestamp > now + 300000 →
      isTransactionTimedOut now timestamp timeoutMs = .ok false) := by
  unfold isTransactionTimedOut
  rw [if_neg (by omega), if_neg (by omega)]
  constructor
  · intro hle
    rw [if_neg (by omega)]
    simp
  · intro hgt
    rw [if_pos hgt]

/-- Witness for C5 (amended) at `now = 5000000`, `timestamp = 1000`,
`timeoutMs = 600`: the transaction is timed out. -/
theorem isTransactionTimedOut_spec_witness :
    (0 : Int) < 1000 ∧ (0 : Int) < 600 ∧
    isTransactionTimedOut 5000000 1000 600 = .ok true :=
  ⟨by decide, by decide,
   ((isTransactionTimedOut_spec 5000000 1000 600 (by decide)
      (by decide)).1 (by decide)).mpr (by decide)⟩

theorem roundHalfAwayFromZero_intCast (n : ℤ) :
    roundHalfAwayFromZero (n : ℚ) = n := by
  unfold roundHalfAwayFromZero
  split
  · rw [Int.floor_int_add]
    norm_num
  · rw [show -(n : ℚ) + 1 / 2 = ((-n : ℤ) : ℚ) + 1 / 2 by push_cast; ring,
      Int.floor_int_add]
    norm_num

theorem bnDiv_eq_of_exact (a b : ℚ) (n : ℤ)
    (h : a / b * 10 ^ 20 = (n : ℚ)) : bnDiv a b = a / b := by
  unfold bnDiv
  rw [h, roundHalfAwayFromZero_intCast, ← h,
    mul_div_cancel_right₀ _ (pow_ne_zero 20 (by norm_num : (10:ℚ) ≠ 0))]

theorem convertAmount_num_eq (q : ℚ) (f t : Int) (hf : 0 ≤ f) (_ht : 0 ≤ t)
    (heq : f = t) : convertAmount (.num q) f t = .ok (.num q) := by
  simp only [convertAmount]
  rw [if_neg (by omega), if_pos heq]

theorem convertAmount_num_up (q : ℚ) (f t : Int) (hf : 0 ≤ f) (ht : 0 ≤ t)
    (hlt : f < t) :
    convertAmount (.num q) f t = .ok (.num (q * 10 ^ (t - f).natAbs)) := by
  simp only [convertAmount]
  rw [if_neg (by omega), if_neg (by omega), if_pos (by omega)]

theorem convertAmount_num_down (q : ℚ) (f t : Int) (hf : 0 ≤ f) (ht : 0 ≤ t)
    (hgt : t < f) :
    convertAmount (.num q) f t =
      .ok (.num (bnDiv q (10 ^ (t - f).natAbs))) := by
  simp only [convertAmount]
  rw [if_neg (by omega), if_neg (by omega), if_neg (by omega)]

/-- C6: converting an amount to the other chain's decimal scale and back is
the identity whenever the down-scaled value stays within the scale limits of
the lower-precision side (it is exactly representable within the
20-decimal-place precision bignumber.js divides at); and the function throws
for negative decimal counts and for non-finite or NaN amounts. -/
theorem convertAmount_roundtrip_and_throws :
    (∀ (q : ℚ) (f t : Int), 0 ≤ f → 0 ≤ t →
      (∃ n : ℤ, q * 10 ^ 20 = (n : ℚ) * 10 ^ (f - t).toNat) →
      (convertAmount (.num q) f t >>= fun a => convertAmount a t f) =
        .ok (.num q)) ∧
    (∀ (a : BigNum) (f t : Int), f < 0 ∨ t < 0 →
      convertAmount a f t = .error "Decimal values must be non-negative") ∧
    (∀ (f t : Int), 0 ≤ f → 0 ≤ t →
      convertAmount .nan f t = .error "Invalid amount value" ∧
      convertAmount .posInf f t = .error "Invalid amount value" ∧
      convertAmount .negInf f t = .error "Invalid amount value") := by
  refine ⟨?_, ?_, ?_⟩
  · intro q f t hf ht hex
    obtain ⟨n, hn⟩ := hex
    have hF : ((10:ℚ) ^ (t - f).natAbs) ≠ 0 :=
      pow_ne_zero _ (by norm_num)
    rcases lt_trichotomy f t with hlt | heq | hgt
    · have h0 : (f - t).toNat = 0 := by omega
      rw [h0, pow_zero, mul_one] at hn
      rw [convertAmount_num_up q f t hf ht hlt]
      show convertAmount (.num (q * 10 ^ (t - f).natAbs)) t f = .ok (.num q)
      rw [convertAmount_num_down _ t f ht hf hlt]
      have habs : (f - t).natAbs = (t - f).natAbs := by omega
      rw [habs]
      have hqq : q * 10 ^ (t - f).natAbs / 10 ^ (t - f).natAbs = q :=
        mul_div_cancel_right₀ _ hF
      rw [bnDiv_eq_of_exact _ _ n (by rw [hqq, hn]), hqq]
    · subst heq
      rw [convertAmount_num_eq q f f hf hf rfl]
      show convertAmount (.num q) f f = .ok (.num q)
      exact convertAmount_num_eq q f f hf hf rfl
    · have hk : (t - f).natAbs = (f - t).toNat := by omega
      rw [convertAmount_num_down q f t hf ht hgt, hk] at *
      have hFk : ((10:ℚ) ^ (f - t).toNat) ≠ 0 :=
        pow_ne_zero _ (by norm_num)
      have hdiv : q / 10 ^ (f - t).toNat * 10 ^ 20 = (n : ℚ) := by
        rw [div_mul_eq_mul_div, hn, mul_div_cancel_right₀ _ hFk]
      rw [bnDiv_eq_of_exact _ _ n hdiv]
      show convertAmount (.num (q / 10 ^ (f - t).toNat)) t f = .ok (.num q)
      rw [convertAmount_num_up _ t f ht hf hgt]
      have habs2 : (f - t).natAbs = (f - t).toNat := by omega
      rw [habs2, div_mul_cancel₀ _ hFk]
  · intro a f t h
    unfold convertAmount
    rw [if_pos h]
  · intro f t hf ht
    refine ⟨?_, ?_, ?_⟩ <;>
      · unfold convertAmount
        rw [if_neg (by omega)]

/-- Witness for C6 at `amount = 5`, `fromDecimals = 2`, `toDecimals = 0`. -/
theorem convertAmount_roundtrip_witness :
    (0 : Int) ≤ 2 ∧ (0 : Int) ≤ 0 ∧
    (∃ n : ℤ, (5:ℚ) * 10 ^ 20 = (n : ℚ) * 10 ^ ((2 : Int) - 0).toNat) ∧
    (convertAmount (.num 5) 2 0 >>= fun a => convertAmount a 0 2) =
      .ok (.num 5) :=
  ⟨by decide, by decide, ⟨5 * 10 ^ 18, by norm_num [show ((2:Int) - 0).toNat = 2 from rfl, show ((2:Int)).toNat = 2 from rfl]⟩,
   convertAmount_roundtrip_and_throws.1 5 2 0 (by decide) (by decide)
     ⟨5 * 10 ^ 18, by norm_num [show ((2:Int) - 0).toNat = 2 from rfl, show ((2:Int)).toNat = 2 from rfl]⟩⟩

/-- C7: the validation of `bridgeToTargetChain` does not reject a zero amount
passed as a BigNumber instance: the `!amount` falsiness test only catches the
number `0`, and bignumber.js `isPositive()` is `true` for zero, so the call
proceeds and invokes the source-chain lock operation with amount `0` —
contrary to the claim (and spec §3/§7) that every non-positive amount is
rejected before any chain interaction.  Evaluated at the failing input. -/
theorem bridgeToTargetChain_accepts_zero_amount :
    bridgeToTargetChain [] "SENDER" "0xRECV" (.big (.num 0)) none
        (.ok "SENDER") (.ok "0xRECV")
        (lockCarbonCredits true "b1" (.ok 1) (.ok ())) id false =
      .ok (lockCarbonCredits true "b1" (.ok 1) (.ok ()), true, []) ∧
    (lockCarbonCredits true "b1" (.ok 1) (.ok ())).success = true :=
  ⟨rfl, rfl⟩

/-- C9 counterexample: for a bridge id absent from the store that belongs to
an Ethereum-sourced (burn-direction) transfer, the code prefers the Algorand
adapter's answer rather than the source chain's: with the Algorand adapter
answering `LOCKED` and the source-chain (target) adapter answering `BURNED`,
the code returns `LOCKED` where the claim requires `BURNED`. -/
theorem getTransactionStatus_prefers_algorand_counterexample :
    getTransactionStatus [] "b1" .locked .burned = .locked ∧
    getTransactionStatusSpec .ethereum [] "b1" .locked .burned = .burned ∧
    BridgeStatus.locked ≠ BridgeStatus.burned :=
  ⟨rfl, rfl, by decide⟩

/-- C9 (amended): `getTransactionStatus` returns the locally stored status
when the id is present; otherwise it returns the Algorand adapter's answer
unless that answer is `FAILED`, in which case the target-chain adapter's
answer.  This coincides with the spec's "prefer the source chain" reading
exactly when the source chain is Algorand. -/
theorem getTransactionStatus_behavior :
    (∀ (store : TxStore) (id : String) (a t : BridgeStatus)
        (tx : BridgeTransaction), store.get id = some tx →
      getTransactionStatus store id a t = tx.status) ∧
    (∀ (store : TxStore) (id : String) (a t : BridgeStatus),
      store.get id = none →
      getTransactionStatus store id a t = if a ≠ .failed then a else t) ∧
    (∀ (store : TxStore) (id : String) (a t : BridgeStatus),
      getTransactionStatusSpec .algorand store id a t =
        getTransactionStatus store id a t) := by
  refine ⟨?_, ?_, ?_⟩
  · intro store id a t tx h
    unfold getTransactionStatus
    rw [h]
  · intro store id a t h
    unfold getTransactionStatus
    rw [h]
  · intro store id a t
    unfold getTransactionStatus getTransactionStatusSpec
    rcases hg : store.get id with _ | tx <;> simp [hg]

/-- Witness for C9 (amended) at a concrete store and id. -/
theorem getTransactionStatus_behavior_witness :
    TxStore.get (TxStore.set [] "t1" sampleTx) "t1" = some sampleTx ∧
    getTransactionStatus (TxStore.set [] "t1" sampleTx) "t1" .pending .pending
      = sampleTx.status :=
  ⟨rfl,
   getTransactionStatus_behavior.1 (TxStore.set [] "t1" sampleTx) "t1"
     .pending .pending sampleTx rfl⟩

theorem fallbackMsg_ne_empty (e : String) :
    (if e = "" then "Unknown error" else e) ≠ "" := by
  split
  · decide
  · assumption

theorem errResult_failShape (msg : String) : failShape (errResult msg) :=
  fun _ => ⟨rfl, _, rfl, fallbackMsg_ne_empty msg⟩

theorem lockCarbonCredits_failShape (acct : Bool) (bid : String)
    (params : Except String Int) (build : Except String Unit) :
    failShape (lockCarbonCredits acct bid params build) := by
  unfold failShape lockCarbonCredits
  cases acct
  · intro _
    exact ⟨rfl, "Bridge account not configured", rfl, by decide⟩
  · cases params with
    | error e => intro _; exact ⟨rfl, _, rfl, fallbackMsg_ne_empty e⟩
    | ok r =>
      cases build with
      | error e => intro _; exact ⟨rfl, _, rfl, fallbackMsg_ne_empty e⟩
      | ok u => intro h; simp at h

theorem releaseCarbonCredits_failShape (bid : String) (acct : Bool)
    (params : Except String Int) (build : Except String Unit)
    (send : Except String String) :
    failShape (releaseCarbonCredits bid acct params build send) := by
  unfold failShape releaseCarbonCredits
  cases acct
  · intro _
    exact ⟨rfl, "Bridge account not configured", rfl, by decide⟩
  · cases params with
    | error e => intro _; exact ⟨rfl, _, rfl, fallbackMsg_ne_empty e⟩
    | ok r =>
      cases build with
      | error e => intro _; exact ⟨rfl, _, rfl, fallbackMsg_ne_empty e⟩
      | ok u =>
        cases send with
        | error e => intro _; exact ⟨rfl, _, rfl, fallbackMsg_ne_empty e⟩
        | ok txId => intro h; simp at h

theorem burnWrappedCarbonCredits_failShape (bid : String)
    (build : Except String Unit) :
    failShape (burnWrappedCarbonCredits bid build) := by
  unfold failShape burnWrappedCarbonCredits
  cases build with
  | error e => intro _; exact ⟨rfl, _, rfl, fallbackMsg_ne_empty e⟩
  | ok u => intro h; simp at h

theorem bridgeToTargetChain_listener_ok (store : TxStore)
    (sender receiver : String) (amount : AmountArg)
    (metadata : Option CarbonCreditMetadata)
    (fmtS fmtR : Except String String) (lockR : BridgeResult)
    (lockEff : TxStore → TxStore) (hlk : failShape lockR) :
    ∃ out, bridgeToTargetChain store sender receiver amount metadata fmtS fmtR
        lockR lockEff true = .ok out ∧ failShape out.1 := by
  unfold bridgeToTargetChain
  repeat' split
  all_goals first
    | exact ⟨_, rfl, errResult_failShape _⟩
    | exact ⟨_, rfl, hlk⟩

theorem bridgeToAlgorand_failShape (sender receiver : String)
    (amount : AmountArg) (fmtS fmtR : Except String String)
    (burnR : BridgeResult) (hbr : failShape burnR) :
    failShape (bridgeToAlgorand sender receiver amount fmtS fmtR burnR) := by
  unfold bridgeToAlgorand
  repeat' split
  all_goals first
    | exact errResult_failShape _
    | exact hbr

/-- C10 counterexample: on a default orchestrator instance — no `error`
listener registered (bridge.ts lines 61-78 register only
lock/burn/verification/timeout) — a validation failure makes
`bridgeToTargetChain` reject with Node's `ERR_UNHANDLED_ERROR`, thrown by the
catch block's ERROR-event emission (bridge.ts lines 343-362), instead of
returning a `BridgeResult`; with an `error` listener registered the same call
returns the intended FAILED result. -/
theorem bridgeToTargetChain_throws_counterexample :
    bridgeToTargetChain [] "" "0xRECV" (.num 100) none (.ok "")
        (.ok "0xRECV") (lockCarbonCredits true "b1" (.ok 1) (.ok ())) id
        false = .error "ERR_UNHANDLED_ERROR" ∧
    bridgeToTargetChain [] "" "0xRECV" (.num 100) none (.ok "")
        (.ok "0xRECV") (lockCarbonCredits true "b1" (.ok 1) (.ok ())) id
        true = .ok (errResult "Sender address is required", false, []) :=
  ⟨rfl, rfl⟩

/-- C10 (amended): `bridgeToAlgorand`, `lockCarbonCredits` and
`releaseCarbonCredits` never propagate an exception: for every input and
every settled outcome of their external calls they return a `BridgeResult`,
and whenever that result reports failure it has status `FAILED` and a
non-empty error message, with each designated internal failure forcing a
failure result.  `bridgeToTargetChain` gives the same guarantee only when an
`error` listener is registered on the event bus; with none registered (as on
a default instance), every caught failure rejects with
`ERR_UNHANDLED_ERROR` from the catch block's ERROR-event emission. -/
theorem publicOps_no_throw_failure_shape :
    ∀ (store : TxStore) (sender receiver : String) (amount : AmountArg)
      (metadata : Option CarbonCreditMetadata)
      (fmtS fmtR : Except String String) (lockEff : TxStore → TxStore)
      (acct : Bool) (bid : String) (params : Except String Int)
      (build build2 : Except String Unit) (send : Except String String),
    (failShape (lockCarbonCredits acct bid params build) ∧
      (acct = false →
        (lockCarbonCredits acct bid params build).success = false)) ∧
    (failShape (releaseCarbonCredits bid acct params build send) ∧
      ((∃ e, send = .error e) →
        (releaseCarbonCredits bid acct params build send).success = false)) ∧
    ((∃ out, bridgeToTargetChain store sender receiver amount metadata
        fmtS fmtR (lockCarbonCredits acct bid params build) lockEff true =
          .ok out ∧ failShape out.1) ∧
      ((∃ e, fmtS = .error e) →
        bridgeToTargetChain store sender receiver amount metadata fmtS fmtR
          (lockCarbonCredits acct bid params build) lockEff false =
          .error "ERR_UNHANDLED_ERROR")) ∧
    (failShape (bridgeToAlgorand sender receiver amount fmtS fmtR
        (burnWrappedCarbonCredits bid build2)) ∧
      ((∃ e, build2 = .error e) →
        (bridgeToAlgorand sender receiver amount fmtS fmtR
          (burnWrappedCarbonCredits bid build2)).success = false)) := by
  intro store sender receiver amount metadata fmtS fmtR lockEff acct bid
    params build build2 send
  refine ⟨⟨lockCarbonCredits_failShape acct bid params build, ?_⟩,
    ⟨releaseCarbonCredits_failShape bid acct params build send, ?_⟩,
    ⟨bridgeToTargetChain_listener_ok store sender receiver amount metadata
      fmtS fmtR _ lockEff (lockCarbonCredits_failShape acct bid params build),
      ?_⟩,
    ⟨bridgeToAlgorand_failShape sender receiver amount fmtS fmtR _
      (burnWrappedCarbonCredits_failShape bid build2), ?_⟩⟩
  · intro ha
    subst ha
    rfl
  · rintro ⟨e, he⟩
    subst he
    cases acct <;> rcases params with e1 | r <;> rcases build with e2 | u <;>
      simp [releaseCarbonCredits]
  · rintro ⟨e, he⟩
    subst he
    unfold bridgeToTargetChain
    repeat' split
    all_goals first
      | rfl
      | simp_all
  · rintro ⟨e, he⟩
    subst he
    rcases fmtS with e1 | s1 <;> rcases fmtR with e2 | s2 <;>
      simp [bridgeToAlgorand, burnWrappedCarbonCredits, errResult]

/-- Witness for C10 at a concrete internal failure: the unconfigured bridge
account on the lock path. -/
theorem publicOps_no_throw_witness :
    (lockCarbonCredits false "b1" (.ok 1) (.ok ())).success = false ∧
    (lockCarbonCredits false "b1" (.ok 1) (.ok ())).status = .failed ∧
    ∃ m, (lockCarbonCredits false "b1" (.ok 1) (.ok ())).error = some m ∧
      m ≠ "" := by
  have h := (publicOps_no_throw_failure_shape [] "S" "R" (.num 1) none
    (.ok "S") (.ok "R") id false "b1" (.ok 1) (.ok ()) (.ok ())
    (.ok "tx")).1
  exact ⟨h.2 rfl, (h.1 (h.2 rfl)).1, (h.1 (h.2 rfl)).2⟩

end CarbonBridge
